import Mathlib

/-!
Verification of `fix_imports.py`: a script that rewrites the relative
path literals of import/export statements in Dart source files according to a fixed
mapping table, using `re.sub` with the pattern
`import\s+['"]<escaped old>['"]` (and the `export` variant), replacing
each match with `import '<new>'` (single quotes).

Texts are modelled as `List Char`.  The regex engine's behaviour on this
pattern family is modelled exactly: leftmost, non-overlapping matches;
the pattern `\s+['"]` is equivalent to "a maximal nonempty run of
whitespace followed by a quote" because no quote is a whitespace
character, so greedy matching with backtracking never succeeds after
giving up whitespace characters.
-/

set_option maxHeartbeats 4000000
set_option maxRecDepth 200000
set_option linter.unusedVariables false

namespace FixImports

/-- Python's `\s` character class for `str` patterns: Unicode whitespace. -/
def isPySpace (c : Char) : Bool :=
  [' ', '\t', '\n', '\x0b', '\x0c', '\r', '\x1c', '\x1d', '\x1e', '\x1f',
   '\x85', '\xa0', '\u1680', '\u2000', '\u2001', '\u2002', '\u2003',
   '\u2004', '\u2005', '\u2006', '\u2007', '\u2008', '\u2009', '\u200a',
   '\u2028', '\u2029', '\u202f', '\u205f', '\u3000'].contains c

/-- The regex character class `['"]`. -/
def isQuote (c : Char) : Bool :=
  c = '\'' || c = '"'

/-- The keyword of the first substitution of each mapping entry. -/
def kwImport : List Char := ['i', 'm', 'p', 'o', 'r', 't']

/-- The keyword of the second substitution of each mapping entry. -/
def kwExport : List Char := ['e', 'x', 'p', 'o', 'r', 't']

/-- `stripLead p s` removes the literal leading run `p` from `s`,
returning the remainder, or `none` when `s` does not start with `p`. -/
def stripLead : List Char → List Char → Option (List Char)
  | [], s => some s
  | _ :: _, [] => none
  | p :: ps, c :: cs => if p = c then stripLead ps cs else none

/-- Matcher for the pattern tail `\s+['"]<old>['"]`, applied to the text
right after a keyword occurrence; returns the text after the whole match. -/
def matchTail (old : List Char) : List Char → Option (List Char)
  | [] => none
  | c :: cs =>
    if isPySpace c then
      match cs.dropWhile isPySpace with
      | q1 :: rest =>
        if isQuote q1 then
          match stripLead old rest with
          | some (q2 :: rest2) => if isQuote q2 then some rest2 else none
          | _ => none
        else none
      | [] => none
    else none

/-- Attempt to match the full pattern `<kw>\s+['"]<old>['"]` at the head of
the text, returning the text after the match. -/
def headMatch (kw old : List Char) (s : List Char) : Option (List Char) :=
  match stripLead kw s with
  | none => none
  | some r => matchTail old r

/-- Worker for `subst`, structurally recursive on a fuel that bounds the
number of remaining scan steps; every step consumes at least one character,
so a fuel of the text's length is always enough. -/
def substGo (kw old new : List Char) : Nat → List Char → List Char
  | _, [] => []
  | 0, s => s
  | fuel + 1, c :: cs =>
    match headMatch kw old (c :: cs) with
    | some rest => (kw ++ ' ' :: '\'' :: new) ++ '\'' :: substGo kw old new fuel rest
    | none => c :: substGo kw old new fuel cs

/-- `re.sub` for the pattern `<kw>\s+['"]<escaped old>['"]` with replacement
`<kw> '<new>'`: replace every leftmost non-overlapping match. -/
def subst (kw old new : List Char) (s : List Char) : List Char :=
  substGo kw old new s.length s

/-- Whether the pattern `<kw>\s+['"]<old>['"]` matches anywhere in `s`. -/
def hasMatch (kw old : List Char) : List Char → Bool
  | [] => false
  | c :: cs => (headMatch kw old (c :: cs)).isSome || hasMatch kw old cs

/-- Per-entry transformation: the `import` substitution followed by the
`export` substitution, as in the body of the mapping loop. -/
def applyEntry (content : List Char) (p : List Char × List Char) : List Char :=
  subst kwExport p.1 p.2 (subst kwImport p.1 p.2 content)

/-- The full per-file transformation: every mapping entry applied in order. -/
def fixContent (mappings : List (List Char × List Char)) (content : List Char) :
    List Char :=
  mappings.foldl applyEntry content

/-- The dict literal of `fix_imports.py` (lines 10-207), as the declared
sequence of key-value pairs in source order, duplicates included. -/
def import_mappings_entries : List (String × String) := [
  ("../core/models/note.dart", "../../../core/models/note.dart"),
  ("../../models/note.dart", "../../../core/models/note.dart"),
  ("../models/note.dart", "../../core/models/note.dart"),
  ("../core/models/page.dart", "../../../core/models/page.dart"),
  ("../../models/page.dart", "../../../core/models/page.dart"),
  ("../models/page.dart", "../../core/models/page.dart"),
  ("../core/models/flash_card.dart", "../../../core/models/flash_card.dart"),
  ("../../models/flash_card.dart", "../../../core/models/flash_card.dart"),
  ("../models/flash_card.dart", "../../core/models/flash_card.dart"),
  ("../core/models/dictionary.dart", "../../../core/models/dictionary.dart"),
  ("../../models/dictionary.dart", "../../../core/models/dictionary.dart"),
  ("../models/dictionary.dart", "../../core/models/dictionary.dart"),
  ("../core/models/processed_text.dart", "../../../core/models/processed_text.dart"),
  ("../../models/processed_text.dart", "../../../core/models/processed_text.dart"),
  ("../models/processed_text.dart", "../../core/models/processed_text.dart"),
  ("../core/models/processing_status.dart", "../../../core/models/processing_status.dart"),
  ("../../models/processing_status.dart", "../../../core/models/processing_status.dart"),
  ("../models/processing_status.dart", "../../core/models/processing_status.dart"),
  ("../core/models/text_unit.dart", "../../../core/models/text_unit.dart"),
  ("../../models/text_unit.dart", "../../../core/models/text_unit.dart"),
  ("../models/text_unit.dart", "../../core/models/text_unit.dart"),
  ("../core/theme/tokens/color_tokens.dart", "../../../core/theme/tokens/color_tokens.dart"),
  ("../../core/theme/tokens/color_tokens.dart", "../../../core/theme/tokens/color_tokens.dart"),
  ("../theme/tokens/color_tokens.dart", "../../core/theme/tokens/color_tokens.dart"),
  ("../core/theme/tokens/typography_tokens.dart", "../../../core/theme/tokens/typography_tokens.dart"),
  ("../../core/theme/tokens/typography_tokens.dart", "../../../core/theme/tokens/typography_tokens.dart"),
  ("../theme/tokens/typography_tokens.dart", "../../core/theme/tokens/typography_tokens.dart"),
  ("../core/theme/tokens/spacing_tokens.dart", "../../../core/theme/tokens/spacing_tokens.dart"),
  ("../../core/theme/tokens/spacing_tokens.dart", "../../../core/theme/tokens/spacing_tokens.dart"),
  ("../theme/tokens/spacing_tokens.dart", "../../core/theme/tokens/spacing_tokens.dart"),
  ("../core/theme/tokens/ui_tokens.dart", "../../../core/theme/tokens/ui_tokens.dart"),
  ("../../core/theme/tokens/ui_tokens.dart", "../../../core/theme/tokens/ui_tokens.dart"),
  ("../theme/tokens/ui_tokens.dart", "../../core/theme/tokens/ui_tokens.dart"),
  ("../../core/services/media/image_service.dart", "../media/image_service.dart"),
  ("../../core/services/common/usage_limit_service.dart", "../common/usage_limit_service.dart"),
  ("../../core/services/text_processing/llm_text_processing.dart", "../text_processing/llm_text_processing.dart"),
  ("../core/services/content/note_service.dart", "../../../core/services/content/note_service.dart"),
  ("../../core/services/content/note_service.dart", "../../../core/services/content/note_service.dart"),
  ("../services/content/note_service.dart", "../../core/services/content/note_service.dart"),
  ("../core/services/content/page_service.dart", "../../../core/services/content/page_service.dart"),
  ("../../core/services/content/page_service.dart", "../../../core/services/content/page_service.dart"),
  ("../services/content/page_service.dart", "../../core/services/content/page_service.dart"),
  ("../core/services/media/image_service.dart", "../../../core/services/media/image_service.dart"),
  ("../../core/services/media/image_service.dart", "../../../core/services/media/image_service.dart"),
  ("../services/media/image_service.dart", "../../core/services/media/image_service.dart"),
  ("../media/image_service.dart", "../../core/services/media/image_service.dart"),
  ("../core/services/media/image_cache_service.dart", "../../../core/services/media/image_cache_service.dart"),
  ("../../core/services/media/image_cache_service.dart", "../../../core/services/media/image_cache_service.dart"),
  ("../services/media/image_cache_service.dart", "../../core/services/media/image_cache_service.dart"),
  ("../core/services/tts/tts_service.dart", "../../../core/services/tts/tts_service.dart"),
  ("../../core/services/tts/tts_service.dart", "../../../core/services/tts/tts_service.dart"),
  ("../services/tts/tts_service.dart", "../../core/services/tts/tts_service.dart"),
  ("../core/services/tts/tts_playback_service.dart", "../../../core/services/tts/tts_playback_service.dart"),
  ("../../core/services/tts/tts_playback_service.dart", "../../../core/services/tts/tts_playback_service.dart"),
  ("../services/tts/tts_playback_service.dart", "../../core/services/tts/tts_playback_service.dart"),
  ("../core/services/tts/tts_api_service.dart", "../../../core/services/tts/tts_api_service.dart"),
  ("../../core/services/tts/tts_api_service.dart", "../../../core/services/tts/tts_api_service.dart"),
  ("../services/tts/tts_api_service.dart", "../../core/services/tts/tts_api_service.dart"),
  ("../tts/tts_api_service.dart", "../../core/services/tts/tts_api_service.dart"),
  ("../core/services/dictionary/dictionary_service.dart", "../../../core/services/dictionary/dictionary_service.dart"),
  ("../../core/services/dictionary/dictionary_service.dart", "../../../core/services/dictionary/dictionary_service.dart"),
  ("../services/dictionary/dictionary_service.dart", "../../core/services/dictionary/dictionary_service.dart"),
  ("../core/services/dictionary/cc_cedict_service.dart", "../../../core/services/dictionary/cc_cedict_service.dart"),
  ("../../core/services/dictionary/cc_cedict_service.dart", "../../../core/services/dictionary/cc_cedict_service.dart"),
  ("../services/dictionary/cc_cedict_service.dart", "../../core/services/dictionary/cc_cedict_service.dart"),
  ("../core/services/text_processing/llm_text_processing.dart", "../../../core/services/text_processing/llm_text_processing.dart"),
  ("../../core/services/text_processing/llm_text_processing.dart", "../../../core/services/text_processing/llm_text_processing.dart"),
  ("../services/text_processing/llm_text_processing.dart", "../../core/services/text_processing/llm_text_processing.dart"),
  ("../text_processing/llm_text_processing.dart", "../../core/services/text_processing/llm_text_processing.dart"),
  ("../core/services/text_processing/ocr_service.dart", "../../../core/services/text_processing/ocr_service.dart"),
  ("../../core/services/text_processing/ocr_service.dart", "../../../core/services/text_processing/ocr_service.dart"),
  ("../services/text_processing/ocr_service.dart", "../../core/services/text_processing/ocr_service.dart"),
  ("../text_processing/ocr_service.dart", "../../core/services/text_processing/ocr_service.dart"),
  ("../core/services/common/usage_limit_service.dart", "../../../core/services/common/usage_limit_service.dart"),
  ("../../core/services/common/usage_limit_service.dart", "../../../core/services/common/usage_limit_service.dart"),
  ("../services/common/usage_limit_service.dart", "../../core/services/common/usage_limit_service.dart"),
  ("../common/usage_limit_service.dart", "../../core/services/common/usage_limit_service.dart"),
  ("../core/services/cache/note_cache_service.dart", "../../../core/services/cache/note_cache_service.dart"),
  ("../../core/services/cache/note_cache_service.dart", "../../../core/services/cache/note_cache_service.dart"),
  ("../services/cache/note_cache_service.dart", "../../core/services/cache/note_cache_service.dart"),
  ("../cache/note_cache_service.dart", "../../core/services/cache/note_cache_service.dart"),
  ("../core/widgets/pika_button.dart", "../../../core/widgets/pika_button.dart"),
  ("../../core/widgets/pika_button.dart", "../../../core/widgets/pika_button.dart"),
  ("../widgets/pika_button.dart", "../../core/widgets/pika_button.dart"),
  ("../core/widgets/tts_button.dart", "../../../core/widgets/tts_button.dart"),
  ("../../core/widgets/tts_button.dart", "../../../core/widgets/tts_button.dart"),
  ("../widgets/tts_button.dart", "../../core/widgets/tts_button.dart"),
  ("../core/widgets/dot_loading_indicator.dart", "../../../core/widgets/dot_loading_indicator.dart"),
  ("../../core/widgets/dot_loading_indicator.dart", "../../../core/widgets/dot_loading_indicator.dart"),
  ("../widgets/dot_loading_indicator.dart", "../../core/widgets/dot_loading_indicator.dart"),
  ("../core/widgets/loading_dialog_experience.dart", "../../../core/widgets/loading_dialog_experience.dart"),
  ("../../core/widgets/loading_dialog_experience.dart", "../../../core/widgets/loading_dialog_experience.dart"),
  ("../widgets/loading_dialog_experience.dart", "../../core/widgets/loading_dialog_experience.dart"),
  ("../core/utils/date_formatter.dart", "../../../core/utils/date_formatter.dart"),
  ("../../core/utils/date_formatter.dart", "../../../core/utils/date_formatter.dart"),
  ("../utils/date_formatter.dart", "../../core/utils/date_formatter.dart"),
  ("../core/utils/context_menu_manager.dart", "../../../core/utils/context_menu_manager.dart"),
  ("../../core/utils/context_menu_manager.dart", "../../../core/utils/context_menu_manager.dart"),
  ("../utils/context_menu_manager.dart", "../../core/utils/context_menu_manager.dart"),
  ("../core/utils/segment_utils.dart", "../../../core/utils/segment_utils.dart"),
  ("../../core/utils/segment_utils.dart", "../../../core/utils/segment_utils.dart"),
  ("../utils/segment_utils.dart", "../../core/utils/segment_utils.dart"),
  ("../core/managers/note_creation_ui_manager.dart", "../../../core/managers/note_creation_ui_manager.dart"),
  ("../../core/managers/note_creation_ui_manager.dart", "../../../core/managers/note_creation_ui_manager.dart"),
  ("../managers/note_creation_ui_manager.dart", "../../core/managers/note_creation_ui_manager.dart"),
  ("../../widgets/flashcard_counter_badge.dart", "../flashcard/flashcard_counter_badge.dart"),
  ("../widgets/flashcard_counter_badge.dart", "../flashcard/flashcard_counter_badge.dart"),
  ("flashcard_counter_badge.dart", "../flashcard/flashcard_counter_badge.dart"),
  ("../../widgets/note_list_item.dart", "../home/note_list_item.dart"),
  ("../widgets/note_list_item.dart", "../home/note_list_item.dart"),
  ("note_list_item.dart", "../home/note_list_item.dart"),
  ("../../../widgets/edit_title_dialog.dart", "../../../core/widgets/edit_title_dialog.dart"),
  ("../../widgets/edit_title_dialog.dart", "../../core/widgets/edit_title_dialog.dart"),
  ("../widgets/edit_title_dialog.dart", "../../core/widgets/edit_title_dialog.dart"),
  ("../../../widgets/delete_note_dialog.dart", "../../../core/widgets/delete_note_dialog.dart"),
  ("../../widgets/delete_note_dialog.dart", "../../core/widgets/delete_note_dialog.dart"),
  ("../widgets/delete_note_dialog.dart", "../../core/widgets/delete_note_dialog.dart"),
  ("../../../widgets/note_action_bottom_sheet.dart", "../view/note_action_bottom_sheet.dart"),
  ("../../widgets/note_action_bottom_sheet.dart", "../view/note_action_bottom_sheet.dart"),
  ("../widgets/note_action_bottom_sheet.dart", "../view/note_action_bottom_sheet.dart"),
  ("../../widgets/note_progress_bar.dart", "../view/note_progress_bar.dart"),
  ("../widgets/note_progress_bar.dart", "../view/note_progress_bar.dart"),
  ("../../widgets/page_indicator.dart", "../view/page_indicator.dart"),
  ("../widgets/page_indicator.dart", "../view/page_indicator.dart"),
  ("../../widgets/page_navigation_button.dart", "../view/page_navigation_button.dart"),
  ("../widgets/page_navigation_button.dart", "../view/page_navigation_button.dart"),
  ("../../widgets/tts_play_all_button.dart", "../tts/tts_play_all_button.dart"),
  ("../widgets/tts_play_all_button.dart", "../tts/tts_play_all_button.dart"),
  ("../features/flashcard/flashcard_screen.dart", "../flashcard/flashcard_screen.dart"),
  ("../../features/flashcard/flashcard_screen.dart", "../flashcard/flashcard_screen.dart"),
  ("../features/sample/sample_flashcard_screen.dart", "../sample/sample_flashcard_screen.dart"),
  ("../../features/sample/sample_flashcard_screen.dart", "../sample/sample_flashcard_screen.dart"),
  ("../../views/screens/full_image_screen.dart", "../../../views/screens/full_image_screen.dart"),
  ("../views/screens/full_image_screen.dart", "../../views/screens/full_image_screen.dart"),
  ("../features/flashcard/flashcard_view_model.dart", "../flashcard/flashcard_view_model.dart"),
  ("../../features/flashcard/flashcard_view_model.dart", "../flashcard/flashcard_view_model.dart"),
  ("../../features/flashcard/flashcard_view_model.dart", "../flashcard/flashcard_view_model.dart"),
  ("../../../features/flashcard/flashcard_view_model.dart", "../flashcard/flashcard_view_model.dart"),
  ("widgets/loading_screen.dart", "views/screens/loading_screen.dart")]

/-- Python dict assignment `d[k] = v`: overwrite in place when the key is
present (keeping its first-insertion position), append otherwise. -/
def dictInsert (m : List (String × String)) (k v : String) :
    List (String × String) :=
  if m.any (fun p => decide (p.1 = k)) then
    m.map (fun p => if p.1 = k then (p.1, v) else p)
  else m ++ [(k, v)]

/-- Building a Python dict from a literal: successive assignments. -/
def dictOfList (l : List (String × String)) : List (String × String) :=
  l.foldl (fun m p => dictInsert m p.1 p.2) []

/-- `import_mappings` as the program sees it: the dict built from the literal,
in iteration order (`.items()`). -/
def import_mappings : List (String × String) := dictOfList import_mappings_entries

/-- The effective mapping table over character lists. -/
def charMappings : List (List Char × List Char) :=
  (import_mappings).map (fun p => (p.1.data, p.2.data))

/-- The effective items of the dict `import_mappings`, written out:
one entry per key at its first-declaration position, carrying the
last-declared value (checked against `dictOfList` below). -/
def effectiveEntries : List (String × String) := [
  ("../core/models/note.dart", "../../../core/models/note.dart"),
  ("../../models/note.dart", "../../../core/models/note.dart"),
  ("../models/note.dart", "../../core/models/note.dart"),
  ("../core/models/page.dart", "../../../core/models/page.dart"),
  ("../../models/page.dart", "../../../core/models/page.dart"),
  ("../models/page.dart", "../../core/models/page.dart"),
  ("../core/models/flash_card.dart", "../../../core/models/flash_card.dart"),
  ("../../models/flash_card.dart", "../../../core/models/flash_card.dart"),
  ("../models/flash_card.dart", "../../core/models/flash_card.dart"),
  ("../core/models/dictionary.dart", "../../../core/models/dictionary.dart"),
  ("../../models/dictionary.dart", "../../../core/models/dictionary.dart"),
  ("../models/dictionary.dart", "../../core/models/dictionary.dart"),
  ("../core/models/processed_text.dart", "../../../core/models/processed_text.dart"),
  ("../../models/processed_text.dart", "../../../core/models/processed_text.dart"),
  ("../models/processed_text.dart", "../../core/models/processed_text.dart"),
  ("../core/models/processing_status.dart", "../../../core/models/processing_status.dart"),
  ("../../models/processing_status.dart", "../../../core/models/processing_status.dart"),
  ("../models/processing_status.dart", "../../core/models/processing_status.dart"),
  ("../core/models/text_unit.dart", "../../../core/models/text_unit.dart"),
  ("../../models/text_unit.dart", "../../../core/models/text_unit.dart"),
  ("../models/text_unit.dart", "../../core/models/text_unit.dart"),
  ("../core/theme/tokens/color_tokens.dart", "../../../core/theme/tokens/color_tokens.dart"),
  ("../../core/theme/tokens/color_tokens.dart", "../../../core/theme/tokens/color_tokens.dart"),
  ("../theme/tokens/color_tokens.dart", "../../core/theme/tokens/color_tokens.dart"),
  ("../core/theme/tokens/typography_tokens.dart", "../../../core/theme/tokens/typography_tokens.dart"),
  ("../../core/theme/tokens/typography_tokens.dart", "../../../core/theme/tokens/typography_tokens.dart"),
  ("../theme/tokens/typography_tokens.dart", "../../core/theme/tokens/typography_tokens.dart"),
  ("../core/theme/tokens/spacing_tokens.dart", "../../../core/theme/tokens/spacing_tokens.dart"),
  ("../../core/theme/tokens/spacing_tokens.dart", "../../../core/theme/tokens/spacing_tokens.dart"),
  ("../theme/tokens/spacing_tokens.dart", "../../core/theme/tokens/spacing_tokens.dart"),
  ("../core/theme/tokens/ui_tokens.dart", "../../../core/theme/tokens/ui_tokens.dart"),
  ("../../core/theme/tokens/ui_tokens.dart", "../../../core/theme/tokens/ui_tokens.dart"),
  ("../theme/tokens/ui_tokens.dart", "../../core/theme/tokens/ui_tokens.dart"),
  ("../../core/services/media/image_service.dart", "../../../core/services/media/image_service.dart"),
  ("../../core/services/common/usage_limit_service.dart", "../../../core/services/common/usage_limit_service.dart"),
  ("../../core/services/text_processing/llm_text_processing.dart", "../../../core/services/text_processing/llm_text_processing.dart"),
  ("../core/services/content/note_service.dart", "../../../core/services/content/note_service.dart"),
  ("../../core/services/content/note_service.dart", "../../../core/services/content/note_service.dart"),
  ("../services/content/note_service.dart", "../../core/services/content/note_service.dart"),
  ("../core/services/content/page_service.dart", "../../../core/services/content/page_service.dart"),
  ("../../core/services/content/page_service.dart", "../../../core/services/content/page_service.dart"),
  ("../services/content/page_service.dart", "../../core/services/content/page_service.dart"),
  ("../core/services/media/image_service.dart", "../../../core/services/media/image_service.dart"),
  ("../services/media/image_service.dart", "../../core/services/media/image_service.dart"),
  ("../media/image_service.dart", "../../core/services/media/image_service.dart"),
  ("../core/services/media/image_cache_service.dart", "../../../core/services/media/image_cache_service.dart"),
  ("../../core/services/media/image_cache_service.dart", "../../../core/services/media/image_cache_service.dart"),
  ("../services/media/image_cache_service.dart", "../../core/services/media/image_cache_service.dart"),
  ("../core/services/tts/tts_service.dart", "../../../core/services/tts/tts_service.dart"),
  ("../../core/services/tts/tts_service.dart", "../../../core/services/tts/tts_service.dart"),
  ("../services/tts/tts_service.dart", "../../core/services/tts/tts_service.dart"),
  ("../core/services/tts/tts_playback_service.dart", "../../../core/services/tts/tts_playback_service.dart"),
  ("../../core/services/tts/tts_playback_service.dart", "../../../core/services/tts/tts_playback_service.dart"),
  ("../services/tts/tts_playback_service.dart", "../../core/services/tts/tts_playback_service.dart"),
  ("../core/services/tts/tts_api_service.dart", "../../../core/services/tts/tts_api_service.dart"),
  ("../../core/services/tts/tts_api_service.dart", "../../../core/services/tts/tts_api_service.dart"),
  ("../services/tts/tts_api_service.dart", "../../core/services/tts/tts_api_service.dart"),
  ("../tts/tts_api_service.dart", "../../core/services/tts/tts_api_service.dart"),
  ("../core/services/dictionary/dictionary_service.dart", "../../../core/services/dictionary/dictionary_service.dart"),
  ("../../core/services/dictionary/dictionary_service.dart", "../../../core/services/dictionary/dictionary_service.dart"),
  ("../services/dictionary/dictionary_service.dart", "../../core/services/dictionary/dictionary_service.dart"),
  ("../core/services/dictionary/cc_cedict_service.dart", "../../../core/services/dictionary/cc_cedict_service.dart"),
  ("../../core/services/dictionary/cc_cedict_service.dart", "../../../core/services/dictionary/cc_cedict_service.dart"),
  ("../services/dictionary/cc_cedict_service.dart", "../../core/services/dictionary/cc_cedict_service.dart"),
  ("../core/services/text_processing/llm_text_processing.dart", "../../../core/services/text_processing/llm_text_processing.dart"),
  ("../services/text_processing/llm_text_processing.dart", "../../core/services/text_processing/llm_text_processing.dart"),
  ("../text_processing/llm_text_processing.dart", "../../core/services/text_processing/llm_text_processing.dart"),
  ("../core/services/text_processing/ocr_service.dart", "../../../core/services/text_processing/ocr_service.dart"),
  ("../../core/services/text_processing/ocr_service.dart", "../../../core/services/text_processing/ocr_service.dart"),
  ("../services/text_processing/ocr_service.dart", "../../core/services/text_processing/ocr_service.dart"),
  ("../text_processing/ocr_service.dart", "../../core/services/text_processing/ocr_service.dart"),
  ("../core/services/common/usage_limit_service.dart", "../../../core/services/common/usage_limit_service.dart"),
  ("../services/common/usage_limit_service.dart", "../../core/services/common/usage_limit_service.dart"),
  ("../common/usage_limit_service.dart", "../../core/services/common/usage_limit_service.dart"),
  ("../core/services/cache/note_cache_service.dart", "../../../core/services/cache/note_cache_service.dart"),
  ("../../core/services/cache/note_cache_service.dart", "../../../core/services/cache/note_cache_service.dart"),
  ("../services/cache/note_cache_service.dart", "../../core/services/cache/note_cache_service.dart"),
  ("../cache/note_cache_service.dart", "../../core/services/cache/note_cache_service.dart"),
  ("../core/widgets/pika_button.dart", "../../../core/widgets/pika_button.dart"),
  ("../../core/widgets/pika_button.dart", "../../../core/widgets/pika_button.dart"),
  ("../widgets/pika_button.dart", "../../core/widgets/pika_button.dart"),
  ("../core/widgets/tts_button.dart", "../../../core/widgets/tts_button.dart"),
  ("../../core/widgets/tts_button.dart", "../../../core/widgets/tts_button.dart"),
  ("../widgets/tts_button.dart", "../../core/widgets/tts_button.dart"),
  ("../core/widgets/dot_loading_indicator.dart", "../../../core/widgets/dot_loading_indicator.dart"),
  ("../../core/widgets/dot_loading_indicator.dart", "../../../core/widgets/dot_loading_indicator.dart"),
  ("../widgets/dot_loading_indicator.dart", "../../core/widgets/dot_loading_indicator.dart"),
  ("../core/widgets/loading_dialog_experience.dart", "../../../core/widgets/loading_dialog_experience.dart"),
  ("../../core/widgets/loading_dialog_experience.dart", "../../../core/widgets/loading_dialog_experience.dart"),
  ("../widgets/loading_dialog_experience.dart", "../../core/widgets/loading_dialog_experience.dart"),
  ("../core/utils/date_formatter.dart", "../../../core/utils/date_formatter.dart"),
  ("../../core/utils/date_formatter.dart", "../../../core/utils/date_formatter.dart"),
  ("../utils/date_formatter.dart", "../../core/utils/date_formatter.dart"),
  ("../core/utils/context_menu_manager.dart", "../../../core/utils/context_menu_manager.dart"),
  ("../../core/utils/context_menu_manager.dart", "../../../core/utils/context_menu_manager.dart"),
  ("../utils/context_menu_manager.dart", "../../core/utils/context_menu_manager.dart"),
  ("../core/utils/segment_utils.dart", "../../../core/utils/segment_utils.dart"),
  ("../../core/utils/segment_utils.dart", "../../../core/utils/segment_utils.dart"),
  ("../utils/segment_utils.dart", "../../core/utils/segment_utils.dart"),
  ("../core/managers/note_creation_ui_manager.dart", "../../../core/managers/note_creation_ui_manager.dart"),
  ("../../core/managers/note_creation_ui_manager.dart", "../../../core/managers/note_creation_ui_manager.dart"),
  ("../managers/note_creation_ui_manager.dart", "../../core/managers/note_creation_ui_manager.dart"),
  ("../../widgets/flashcard_counter_badge.dart", "../flashcard/flashcard_counter_badge.dart"),
  ("../widgets/flashcard_counter_badge.dart", "../flashcard/flashcard_counter_badge.dart"),
  ("flashcard_counter_badge.dart", "../flashcard/flashcard_counter_badge.dart"),
  ("../../widgets/note_list_item.dart", "../home/note_list_item.dart"),
  ("../widgets/note_list_item.dart", "../home/note_list_item.dart"),
  ("note_list_item.dart", "../home/note_list_item.dart"),
  ("../../../widgets/edit_title_dialog.dart", "../../../core/widgets/edit_title_dialog.dart"),
  ("../../widgets/edit_title_dialog.dart", "../../core/widgets/edit_title_dialog.dart"),
  ("../widgets/edit_title_dialog.dart", "../../core/widgets/edit_title_dialog.dart"),
  ("../../../widgets/delete_note_dialog.dart", "../../../core/widgets/delete_note_dialog.dart"),
  ("../../widgets/delete_note_dialog.dart", "../../core/widgets/delete_note_dialog.dart"),
  ("../widgets/delete_note_dialog.dart", "../../core/widgets/delete_note_dialog.dart"),
  ("../../../widgets/note_action_bottom_sheet.dart", "../view/note_action_bottom_sheet.dart"),
  ("../../widgets/note_action_bottom_sheet.dart", "../view/note_action_bottom_sheet.dart"),
  ("../widgets/note_action_bottom_sheet.dart", "../view/note_action_bottom_sheet.dart"),
  ("../../widgets/note_progress_bar.dart", "../view/note_progress_bar.dart"),
  ("../widgets/note_progress_bar.dart", "../view/note_progress_bar.dart"),
  ("../../widgets/page_indicator.dart", "../view/page_indicator.dart"),
  ("../widgets/page_indicator.dart", "../view/page_indicator.dart"),
  ("../../widgets/page_navigation_button.dart", "../view/page_navigation_button.dart"),
  ("../widgets/page_navigation_button.dart", "../view/page_navigation_button.dart"),
  ("../../widgets/tts_play_all_button.dart", "../tts/tts_play_all_button.dart"),
  ("../widgets/tts_play_all_button.dart", "../tts/tts_play_all_button.dart"),
  ("../features/flashcard/flashcard_screen.dart", "../flashcard/flashcard_screen.dart"),
  ("../../features/flashcard/flashcard_screen.dart", "../flashcard/flashcard_screen.dart"),
  ("../features/sample/sample_flashcard_screen.dart", "../sample/sample_flashcard_screen.dart"),
  ("../../features/sample/sample_flashcard_screen.dart", "../sample/sample_flashcard_screen.dart"),
  ("../../views/screens/full_image_screen.dart", "../../../views/screens/full_image_screen.dart"),
  ("../views/screens/full_image_screen.dart", "../../views/screens/full_image_screen.dart"),
  ("../features/flashcard/flashcard_view_model.dart", "../flashcard/flashcard_view_model.dart"),
  ("../../features/flashcard/flashcard_view_model.dart", "../flashcard/flashcard_view_model.dart"),
  ("../../../features/flashcard/flashcard_view_model.dart", "../flashcard/flashcard_view_model.dart"),
  ("widgets/loading_screen.dart", "views/screens/loading_screen.dart")]

/-- The effective table over character lists, from the written-out items. -/
def effectiveCharMappings : List (List Char × List Char) :=
  (effectiveEntries).map (fun p => (p.1.data, p.2.data))

/-- The per-file transformation of `fix_imports` on a file content string. -/
def fixContentS (s : String) : String := ⟨fixContent charMappings s.data⟩

/-- The declared pair sequence over character lists, duplicates included. -/
def declaredCharMappings : List (List Char × List Char) :=
  (import_mappings_entries).map (fun p => (p.1.data, p.2.data))

/-- Follows the words of the spec claim on duplicate keys: the mapping table
behaves as the full declared ordered sequence of `(old, new)` pairs, every
declared substitution for a duplicated key taking effect in declaration
order.  Used only to compare that reading against the program. -/
def fixContentDeclaredS (s : String) : String :=
  ⟨fixContent declaredCharMappings s.data⟩

/-- No `import`/`export` pattern of any effective mapping entry occurs in `s`. -/
def noOccAll (s : String) : Bool :=
  charMappings.all
    (fun p => !(hasMatch kwImport p.1 s.data) && !(hasMatch kwExport p.1 s.data))

/-- A file of the simulated run: its path, the outcome of reading it, and
whether writing it back would raise (with the exception message). -/
structure SimFile where
  path : String
  readRes : Except String String
  writeErr : Option String

/-- Console lines of the run relevant to per-file outcomes. -/
inductive LogLine where
  | modifiedLog : String → LogLine
  | errorLog : String → String → LogLine
deriving DecidableEq

/-- One iteration of the file loop, `try`/`except` included: a read error or
a write error is logged with the file path and the message and the file is
not counted; a changed file is written and counted; an unchanged file is
left alone. -/
def fileStep (f : SimFile) : List LogLine × Bool :=
  match f.readRes with
  | Except.error e => ([LogLine.errorLog f.path e], false)
  | Except.ok content =>
    if fixContentS content = content then ([], false)
    else
      match f.writeErr with
      | some e => ([LogLine.errorLog f.path e], false)
      | none => ([LogLine.modifiedLog f.path], true)

/-- The file loop: processes every file in order, accumulating the log and
the modified-file counter. -/
def runLoop : List SimFile → List LogLine → Nat → List LogLine × Nat
  | [], logs, modified => (logs, modified)
  | f :: fs, logs, modified =>
    runLoop fs (logs ++ (fileStep f).1)
      (modified + (if (fileStep f).2 then 1 else 0))

/-- The whole run over a list of discovered files: the log lines, the
modified-file count, and the total file count of the final summary. -/
def fixImportsRun (files : List SimFile) : List LogLine × Nat × Nat :=
  ((runLoop files [] 0).1, (runLoop files [] 0).2, files.length)

/-- Whether reading the file raises. -/
def readFails (f : SimFile) : Bool :=
  match f.readRes with
  | Except.error _ => true
  | Except.ok _ => false

/-- A plain relative-path string: no whitespace, no quote characters, no
backslash (every key and value of the mapping table is of this shape;
a backslash in a replacement would be interpreted by `re.sub`). -/
def pathLike (k : List Char) : Bool :=
  k.all (fun c => !(isPySpace c) && !(isQuote c) && !(c = '\\'))

/-- A canonical quoted statement: `<kw> <q1><k><q2>`. -/
def stmtText (kw : List Char) (q1 q2 : Char) (k : List Char) : List Char :=
  kw ++ ' ' :: q1 :: (k ++ [q2])

/-- A text with a keyword occurrence inside a longer identifier and a second
one inside a line comment: `re<kw> '<k>' // <kw> '<k>'`. -/
def keywordTailText (kw k : List Char) : List Char :=
  'r' :: 'e' ::
    (kw ++ ' ' :: '\'' ::
      (k ++ '\'' :: ' ' :: '/' :: '/' :: ' ' :: (kw ++ ' ' :: '\'' :: (k ++ ['\'']))))

theorem stripLead_eq_some {p s r : List Char} :
    stripLead p s = some r ↔ s = p ++ r := by
  induction p generalizing s with
  | nil => simp [stripLead]
  | cons a as ih =>
    cases s with
    | nil => simp [stripLead]
    | cons c cs =>
      by_cases hac : a = c
      · subst hac
        simp [stripLead, ih]
      · simp [stripLead, hac, Ne.symm hac]

theorem stripLead_self (p r : List Char) : stripLead p (p ++ r) = some r :=
  stripLead_eq_some.mpr rfl

theorem stripLead_length {p s r : List Char} (h : stripLead p s = some r) :
    r.length ≤ s.length := by
  have := stripLead_eq_some.mp h
  subst this
  simp

theorem matchTail_length {old s r : List Char} (h : matchTail old s = some r) :
    r.length < s.length := by
  cases s with
  | nil => simp [matchTail] at h
  | cons c cs =>
    by_cases hws : isPySpace c
    · rcases hdrop : cs.dropWhile isPySpace with _ | ⟨q1, rest⟩
      · simp [matchTail, hws, hdrop] at h
      · by_cases hq1 : isQuote q1
        · rcases hstrip : stripLead old rest with _ | ⟨_ | ⟨q2, rest2⟩⟩
          · simp [matchTail, hws, hdrop, hq1, hstrip] at h
          · simp [matchTail, hws, hdrop, hq1, hstrip] at h
          · by_cases hq2 : isQuote q2
            · simp only [matchTail, hws, hdrop, hq1, hstrip, hq2, if_true,
                Option.some.injEq] at h
              subst h
              have hds : (cs.dropWhile isPySpace).length ≤ cs.length :=
                (List.dropWhile_sublist (l := cs) isPySpace).length_le
              rw [hdrop] at hds
              have h2 : (q2 :: rest2).length ≤ rest.length := stripLead_length hstrip
              simp only [List.length_cons] at hds h2
              simp only [List.length_cons]
              omega
            · simp [matchTail, hws, hdrop, hq1, hstrip, hq2] at h
        · simp [matchTail, hws, hdrop, hq1] at h
    · simp [matchTail, hws] at h

theorem headMatch_length {kw old s r : List Char}
    (h : headMatch kw old s = some r) : r.length < s.length := by
  unfold headMatch at h
  split at h
  · exact absurd h (by simp)
  · rename_i r1 hstrip
    exact lt_of_lt_of_le (matchTail_length h) (stripLead_length hstrip)

theorem substGo_fuel {kw old new : List Char} :
    ∀ (f1 f2 : Nat) (s : List Char), s.length ≤ f1 → s.length ≤ f2 →
      substGo kw old new f1 s = substGo kw old new f2 s := by
  intro f1
  induction f1 with
  | zero =>
    intro f2 s h1 h2
    have : s = [] := List.length_eq_zero.mp (Nat.le_zero.mp h1)
    subst this
    cases f2 <;> rfl
  | succ g1 ih =>
    intro f2 s h1 h2
    cases s with
    | nil => cases f2 <;> rfl
    | cons c cs =>
      cases f2 with
      | zero => exact absurd h2 (by simp)
      | succ g2 =>
        cases ho : headMatch kw old (c :: cs) with
        | some rest =>
          have hlt : rest.length < (c :: cs).length := headMatch_length ho
          simp only [List.length_cons] at h1 h2 hlt
          simp only [substGo, ho]
          rw [ih g2 rest (by omega) (by omega)]
        | none =>
          simp only [List.length_cons] at h1 h2
          simp only [substGo, ho]
          rw [ih g2 cs (by omega) (by omega)]

theorem headMatch_nil {kw old : List Char} : headMatch kw old [] = none := by
  unfold headMatch
  cases hstrip : stripLead kw [] with
  | none => rfl
  | some r =>
    have hr : ([] : List Char) = kw ++ r := stripLead_eq_some.mp hstrip
    have : r = [] := by
      cases (List.append_eq_nil.mp hr.symm) with
      | intro h1 h2 => exact h2
    subst this
    simp [matchTail]

theorem subst_cons_of_match {kw old new : List Char} {c : Char} {cs rest : List Char}
    (h : headMatch kw old (c :: cs) = some rest) :
    subst kw old new (c :: cs)
      = (kw ++ ' ' :: '\'' :: new) ++ '\'' :: subst kw old new rest := by
  have hlt : rest.length < (c :: cs).length := headMatch_length h
  simp only [List.length_cons] at hlt
  simp only [subst, List.length_cons, substGo, h]
  rw [substGo_fuel _ rest.length rest (by omega) (Nat.le_refl _)]

theorem subst_cons_of_nomatch {kw old new : List Char} {c : Char} {cs : List Char}
    (h : headMatch kw old (c :: cs) = none) :
    subst kw old new (c :: cs) = c :: subst kw old new cs := by
  simp only [subst, List.length_cons, substGo, h]

theorem subst_eq_of_match {kw old new s rest : List Char}
    (h : headMatch kw old s = some rest) :
    subst kw old new s
      = (kw ++ ' ' :: '\'' :: new) ++ '\'' :: subst kw old new rest := by
  cases s with
  | nil => rw [headMatch_nil] at h; exact absurd h (by simp)
  | cons c cs => exact subst_cons_of_match h

theorem subst_of_hasMatch_false {kw old new s : List Char}
    (h : hasMatch kw old s = false) : subst kw old new s = s := by
  induction s with
  | nil => rfl
  | cons c cs ih =>
    simp only [hasMatch, Bool.or_eq_false_iff] at h
    cases ho : headMatch kw old (c :: cs) with
    | some rest => rw [ho] at h; simp at h
    | none => rw [subst_cons_of_nomatch ho, ih h.2]

/-- A quote character is never a whitespace character. -/
theorem quote_not_space {c : Char} (h : isQuote c = true) : isPySpace c = false := by
  simp only [isQuote, Bool.or_eq_true, decide_eq_true_eq] at h
  rcases h with h | h <;> subst h <;> decide

theorem headMatch_none_of_no_space {kw old s : List Char}
    (h : ∀ c ∈ s, isPySpace c = false) : headMatch kw old s = none := by
  unfold headMatch
  cases hstrip : stripLead kw s with
  | none => rfl
  | some r =>
    have hr : s = kw ++ r := stripLead_eq_some.mp hstrip
    cases r with
    | nil => simp [matchTail]
    | cons d ds =>
      have hd : isPySpace d = false := by
        refine h d ?_
        rw [hr]
        exact List.mem_append_right _ (by simp)
      simp [matchTail, hd]

theorem hasMatch_false_of_no_space {kw old s : List Char}
    (h : ∀ c ∈ s, isPySpace c = false) : hasMatch kw old s = false := by
  induction s with
  | nil => rfl
  | cons c cs ih =>
    simp only [hasMatch, Bool.or_eq_false_iff]
    constructor
    · rw [headMatch_none_of_no_space h]
      rfl
    · exact ih (fun x hx => h x (List.mem_cons_of_mem _ hx))

theorem subst_of_no_space {kw old new s : List Char}
    (h : ∀ c ∈ s, isPySpace c = false) : subst kw old new s = s :=
  subst_of_hasMatch_false (hasMatch_false_of_no_space h)

/-- The full pattern matches at the head of a canonical quoted statement. -/
theorem headMatch_pattern {q1 q2 : Char} (hq1 : isQuote q1 = true)
    (hq2 : isQuote q2 = true) (kw old rest : List Char) :
    headMatch kw old (kw ++ ' ' :: q1 :: (old ++ q2 :: rest)) = some rest := by
  unfold headMatch
  rw [stripLead_self]
  have hsp : isPySpace ' ' = true := by decide
  have hq1s : isPySpace q1 = false := quote_not_space hq1
  have hdrop : List.dropWhile isPySpace (q1 :: (old ++ q2 :: rest))
      = q1 :: (old ++ q2 :: rest) :=
    List.dropWhile_cons_of_neg (by simp [hq1s])
  simp only [matchTail, hsp, if_true, hdrop, hq1, stripLead_self, hq2]

/-- The substitution rewrites a canonical quoted statement at the head of the
text, normalising the quote characters to single quotes. -/
theorem subst_pattern {q1 q2 : Char} (hq1 : isQuote q1 = true)
    (hq2 : isQuote q2 = true) (kw old new rest : List Char) :
    subst kw old new (kw ++ ' ' :: q1 :: (old ++ q2 :: rest))
      = (kw ++ ' ' :: '\'' :: new) ++ '\'' :: subst kw old new rest :=
  subst_eq_of_match (headMatch_pattern hq1 hq2 kw old rest)

theorem fixContent_nil (c : List Char) : fixContent [] c = c := rfl

theorem fixContent_cons (p : List Char × List Char)
    (ps : List (List Char × List Char)) (c : List Char) :
    fixContent (p :: ps) c = fixContent ps (applyEntry c p) := rfl

theorem fixContent_append (m1 m2 : List (List Char × List Char)) (c : List Char) :
    fixContent (m1 ++ m2) c = fixContent m2 (fixContent m1 c) :=
  List.foldl_append applyEntry c m1 m2

theorem fixContent_noop {m : List (List Char × List Char)} {c : List Char}
    (h : ∀ p ∈ m, hasMatch kwImport p.1 c = false ∧ hasMatch kwExport p.1 c = false) :
    fixContent m c = c := by
  induction m with
  | nil => rfl
  | cons p ps ih =>
    have h1 := h p (by simp)
    have e1 : applyEntry c p = c := by
      unfold applyEntry
      rw [subst_of_hasMatch_false h1.1, subst_of_hasMatch_false h1.2]
    rw [fixContent_cons, e1]
    exact ih (fun q hq => h q (List.mem_cons_of_mem _ hq))

theorem import_mappings_eval : import_mappings = effectiveEntries := by decide

theorem charMappings_eval : charMappings = effectiveCharMappings := by
  unfold charMappings effectiveCharMappings
  rw [import_mappings_eval]

theorem pathLike_spec {k : List Char} {c : Char} (hk : pathLike k = true)
    (hc : c ∈ k) : isPySpace c = false ∧ isQuote c = false ∧ c ≠ '\\' := by
  unfold pathLike at hk
  rw [List.all_eq_true] at hk
  have := hk c hc
  simp only [Bool.and_eq_true, Bool.not_eq_true', decide_eq_true_eq] at this
  refine ⟨this.1.1, this.1.2, ?_⟩
  intro hcc
  have := this.2
  simp [hcc] at this

theorem quote_cases {q : Char} (h : isQuote q = true) : q = '\'' ∨ q = '"' := by
  simpa [isQuote] using h

theorem headMatch_cons_ne {c0 : Char} {kwr old : List Char} {c : Char}
    {cs : List Char} (h : c0 ≠ c) :
    headMatch (c0 :: kwr) old (c :: cs) = none := by
  simp [headMatch, stripLead, h]

theorem hasMatch_cons_false {kw old : List Char} {c : Char} {cs : List Char}
    (h1 : headMatch kw old (c :: cs) = none) (h2 : hasMatch kw old cs = false) :
    hasMatch kw old (c :: cs) = false := by
  simp [hasMatch, h1, h2]

theorem headMatch_none_quoted {k kp : List Char} {q1 q2 : Char} (kw : List Char)
    (hk : pathLike k = true) (hne : kp ≠ k) (hq1 : isQuote q1 = true)
    (hq2 : isQuote q2 = true) :
    headMatch kw kp (stmtText kw q1 q2 k) = none := by
  unfold stmtText headMatch
  rw [stripLead_self]
  have hq1s : isPySpace q1 = false := quote_not_space hq1
  have hdrop : List.dropWhile isPySpace (q1 :: (k ++ [q2])) = q1 :: (k ++ [q2]) :=
    List.dropWhile_cons_of_neg (by simp [hq1s])
  simp only [matchTail, (by decide : isPySpace ' ' = true), if_true, hdrop, hq1]
  cases hstrip : stripLead kp (k ++ [q2]) with
  | none => rfl
  | some r =>
    have heq : k ++ [q2] = kp ++ r := stripLead_eq_some.mp hstrip
    cases r with
    | nil => rfl
    | cons q2p r3 =>
      have hlen : k.length + 1 = kp.length + (r3.length + 1) := by
        have := congrArg List.length heq
        simpa using this
      have hq2p : isQuote q2p = false := by
        by_cases hl : kp.length = k.length
        · have hr3 : r3 = [] := by
            have : r3.length = 0 := by omega
            exact List.length_eq_zero.mp this
          subst hr3
          have := List.append_inj heq hl.symm
          exact absurd this.1.symm hne
        · have hlt : kp.length < k.length := by omega
          have hk2 : k.take kp.length ++ k.drop kp.length = k :=
            List.take_append_drop _ k
          have hlen2 : (k.take kp.length).length = kp.length := by
            simp [List.length_take]
            omega
          have heq2 : k.take kp.length ++ (k.drop kp.length ++ [q2])
              = kp ++ (q2p :: r3) := by
            rw [← List.append_assoc, hk2]
            exact heq
          have hinj := List.append_inj heq2 hlen2
          have hdropk : k.drop kp.length ++ [q2] = q2p :: r3 := hinj.2
          cases hdk : k.drop kp.length with
          | nil =>
            have : k.length - kp.length = 0 := by
              have := congrArg List.length hdk
              simpa using this
            omega
          | cons d ds =>
            rw [hdk] at hdropk
            have hd : d = q2p := by
              have := congrArg (fun l => l.headI) hdropk
              simpa using this
            have hdmem : d ∈ k := by
              refine List.drop_subset kp.length k ?_
              rw [hdk]
              exact List.mem_cons_self _ _
            rw [← hd]
            exact (pathLike_spec hk hdmem).2.1
      simp [hq2p]

theorem hasMatch_stmt_ne_key {k kp : List Char} {q1 q2 : Char}
    (hk : pathLike k = true) (hne : kp ≠ k) (hq1 : isQuote q1 = true)
    (hq2 : isQuote q2 = true) :
    hasMatch kwImport kp (stmtText kwImport q1 q2 k) = false := by
  have h0 : headMatch kwImport kp (stmtText kwImport q1 q2 k) = none :=
    headMatch_none_quoted kwImport hk hne hq1 hq2
  have hwf : ∀ c ∈ k ++ [q2], isPySpace c = false := by
    intro c hc
    rcases List.mem_append.mp hc with hc | hc
    · exact (pathLike_spec hk hc).1
    · rw [List.mem_singleton.mp hc]
      exact quote_not_space hq2
  have hq1i : ('i' : Char) ≠ q1 := by
    rcases quote_cases hq1 with rfl | rfl <;> decide
  simp only [stmtText, kwImport, List.cons_append, List.nil_append] at h0 ⊢
  refine hasMatch_cons_false h0 (hasMatch_cons_false (headMatch_cons_ne (by decide))
    (hasMatch_cons_false (headMatch_cons_ne (by decide))
      (hasMatch_cons_false (headMatch_cons_ne (by decide))
        (hasMatch_cons_false (headMatch_cons_ne (by decide))
          (hasMatch_cons_false (headMatch_cons_ne (by decide))
            (hasMatch_cons_false (headMatch_cons_ne (by decide))
              (hasMatch_cons_false (headMatch_cons_ne hq1i)
                (hasMatch_false_of_no_space hwf))))))))

theorem hasMatch_export_in_stmt {k old : List Char} {q1 q2 : Char}
    (hk : pathLike k = true) (hq1 : isQuote q1 = true) (hq2 : isQuote q2 = true) :
    hasMatch kwExport old (stmtText kwImport q1 q2 k) = false := by
  have hwf : ∀ c ∈ k ++ [q2], isPySpace c = false := by
    intro c hc
    rcases List.mem_append.mp hc with hc | hc
    · exact (pathLike_spec hk hc).1
    · rw [List.mem_singleton.mp hc]
      exact quote_not_space hq2
  have hq1e : ('e' : Char) ≠ q1 := by
    rcases quote_cases hq1 with rfl | rfl <;> decide
  simp only [stmtText, kwImport, kwExport, List.cons_append, List.nil_append]
  refine hasMatch_cons_false (headMatch_cons_ne (by decide))
    (hasMatch_cons_false (headMatch_cons_ne (by decide))
      (hasMatch_cons_false (headMatch_cons_ne (by decide))
        (hasMatch_cons_false (headMatch_cons_ne (by decide))
          (hasMatch_cons_false (headMatch_cons_ne (by decide))
            (hasMatch_cons_false (headMatch_cons_ne (by decide))
              (hasMatch_cons_false (headMatch_cons_ne (by decide))
                (hasMatch_cons_false (headMatch_cons_ne hq1e)
                  (hasMatch_false_of_no_space hwf))))))))

theorem subst_stmt_ne_key {k kp v : List Char} {q1 q2 : Char}
    (hk : pathLike k = true) (hne : kp ≠ k) (hq1 : isQuote q1 = true)
    (hq2 : isQuote q2 = true) :
    subst kwImport kp v (stmtText kwImport q1 q2 k) = stmtText kwImport q1 q2 k :=
  subst_of_hasMatch_false (hasMatch_stmt_ne_key hk hne hq1 hq2)

theorem subst_export_stmt {k old v : List Char} {q1 q2 : Char}
    (hk : pathLike k = true) (hq1 : isQuote q1 = true) (hq2 : isQuote q2 = true) :
    subst kwExport old v (stmtText kwImport q1 q2 k) = stmtText kwImport q1 q2 k :=
  subst_of_hasMatch_false (hasMatch_export_in_stmt hk hq1 hq2)

theorem applyEntry_stmt_ne {p : List Char × List Char} {k : List Char}
    {q1 q2 : Char} (hk : pathLike k = true) (hne : p.1 ≠ k)
    (hq1 : isQuote q1 = true) (hq2 : isQuote q2 = true) :
    applyEntry (stmtText kwImport q1 q2 k) p = stmtText kwImport q1 q2 k := by
  unfold applyEntry
  rw [subst_stmt_ne_key hk hne hq1 hq2, subst_export_stmt hk hq1 hq2]

theorem fixContent_stmt_ne {m : List (List Char × List Char)} {k : List Char}
    {q1 q2 : Char} (hk : pathLike k = true) (hall : ∀ p ∈ m, p.1 ≠ k)
    (hq1 : isQuote q1 = true) (hq2 : isQuote q2 = true) :
    fixContent m (stmtText kwImport q1 q2 k) = stmtText kwImport q1 q2 k := by
  induction m with
  | nil => rfl
  | cons p ps ih =>
    rw [fixContent_cons, applyEntry_stmt_ne hk (hall p (by simp)) hq1 hq2]
    exact ih (fun q hq => hall q (List.mem_cons_of_mem _ hq))

theorem subst_stmt_match {k v : List Char} {q1 q2 : Char}
    (hq1 : isQuote q1 = true) (hq2 : isQuote q2 = true) :
    subst kwImport k v (stmtText kwImport q1 q2 k)
      = stmtText kwImport '\'' '\'' v := by
  unfold stmtText
  rw [subst_pattern hq1 hq2 kwImport k v []]
  simp [subst, substGo, List.append_assoc]

theorem applyEntry_stmt_match {k v : List Char} {q1 q2 : Char}
    (hv : pathLike v = true) (hq1 : isQuote q1 = true) (hq2 : isQuote q2 = true) :
    applyEntry (stmtText kwImport q1 q2 k) (k, v)
      = stmtText kwImport '\'' '\'' v := by
  unfold applyEntry
  show subst kwExport k v (subst kwImport k v (stmtText kwImport q1 q2 k))
      = stmtText kwImport '\'' '\'' v
  rw [subst_stmt_match hq1 hq2]
  exact subst_export_stmt hv (by decide) (by decide)

theorem fixContent_two_chain {A B C : List Char} (hB : pathLike B = true)
    (hC : pathLike C = true) :
    fixContent [(A, B), (B, C)] (stmtText kwImport '\'' '\'' A)
      = stmtText kwImport '\'' '\'' C := by
  rw [fixContent_cons, applyEntry_stmt_match hB (by decide) (by decide),
    fixContent_cons, applyEntry_stmt_match hC (by decide) (by decide),
    fixContent_nil]

theorem subst_pattern_sq (kw old new rest : List Char) :
    subst kw old new (kw ++ ' ' :: '\'' :: (old ++ '\'' :: rest))
      = (kw ++ ' ' :: '\'' :: new) ++ '\'' :: subst kw old new rest :=
  subst_pattern (by decide) (by decide) kw old new rest

theorem headMatch_imp_ne {old : List Char} {c : Char} {cs : List Char}
    (h : ('i' : Char) ≠ c) : headMatch kwImport old (c :: cs) = none :=
  headMatch_cons_ne h

theorem headMatch_exp_ne {old : List Char} {c : Char} {cs : List Char}
    (h : ('e' : Char) ≠ c) : headMatch kwExport old (c :: cs) = none :=
  headMatch_cons_ne h

theorem headMatch_exp_after_e (old rest : List Char) :
    headMatch kwExport old ('e' :: (kwExport ++ rest)) = none := rfl

theorem subst_keywordTail_imp (k v : List Char) :
    subst kwImport k v (keywordTailText kwImport k)
      = keywordTailText kwImport v := by
  unfold keywordTailText
  rw [subst_cons_of_nomatch (headMatch_imp_ne (by decide)),
    subst_cons_of_nomatch (headMatch_imp_ne (by decide)),
    subst_pattern_sq kwImport k v,
    subst_cons_of_nomatch (headMatch_imp_ne (by decide)),
    subst_cons_of_nomatch (headMatch_imp_ne (by decide)),
    subst_cons_of_nomatch (headMatch_imp_ne (by decide)),
    subst_cons_of_nomatch (headMatch_imp_ne (by decide)),
    subst_pattern_sq kwImport k v]
  simp [subst, substGo, List.append_assoc]

theorem subst_keywordTail_exp (k v : List Char) :
    subst kwExport k v (keywordTailText kwExport k)
      = keywordTailText kwExport v := by
  unfold keywordTailText
  rw [subst_cons_of_nomatch (headMatch_exp_ne (by decide)),
    subst_cons_of_nomatch (headMatch_exp_after_e k _),
    subst_pattern_sq kwExport k v,
    subst_cons_of_nomatch (headMatch_exp_ne (by decide)),
    subst_cons_of_nomatch (headMatch_exp_ne (by decide)),
    subst_cons_of_nomatch (headMatch_exp_ne (by decide)),
    subst_cons_of_nomatch (headMatch_exp_ne (by decide)),
    subst_pattern_sq kwExport k v]
  simp [subst, substGo, List.append_assoc]

theorem runLoop_acc :
    ∀ (fs : List SimFile) (logs : List LogLine) (modified : Nat),
      runLoop fs logs modified
        = (logs ++ (runLoop fs [] 0).1, modified + (runLoop fs [] 0).2) := by
  intro fs
  induction fs with
  | nil =>
    intro logs m
    simp [runLoop]
  | cons f fs ih =>
    intro logs m
    have hL : runLoop (f :: fs) logs m
        = runLoop fs (logs ++ (fileStep f).1)
            (m + if (fileStep f).2 then 1 else 0) := rfl
    have hR : runLoop (f :: fs) [] 0
        = runLoop fs ([] ++ (fileStep f).1)
            (0 + if (fileStep f).2 then 1 else 0) := rfl
    have e1 := ih (logs ++ (fileStep f).1) (m + if (fileStep f).2 then 1 else 0)
    have e2 := ih ([] ++ (fileStep f).1) (0 + if (fileStep f).2 then 1 else 0)
    rw [hL, e1, hR, e2]
    simp [List.append_assoc, Nat.add_assoc]

theorem runLoop_cons (f : SimFile) (fs : List SimFile) :
    runLoop (f :: fs) [] 0
      = ((fileStep f).1 ++ (runLoop fs [] 0).1,
         (if (fileStep f).2 then 1 else 0) + (runLoop fs [] 0).2) := by
  have h : runLoop (f :: fs) [] 0
      = runLoop fs ([] ++ (fileStep f).1)
          (0 + if (fileStep f).2 then 1 else 0) := rfl
  rw [h, runLoop_acc]
  simp

theorem runLoop_append (l1 l2 : List SimFile) :
    runLoop (l1 ++ l2) [] 0
      = ((runLoop l1 [] 0).1 ++ (runLoop l2 [] 0).1,
         (runLoop l1 [] 0).2 + (runLoop l2 [] 0).2) := by
  induction l1 with
  | nil => simp [runLoop]
  | cons f fs ih =>
    show runLoop (f :: (fs ++ l2)) [] 0 = _
    rw [runLoop_cons, ih, runLoop_cons]
    simp [List.append_assoc, Nat.add_assoc]

theorem runLoop_count (files : List SimFile) :
    (runLoop files [] 0).2 = files.countP (fun g => (fileStep g).2) := by
  induction files with
  | nil => rfl
  | cons f fs ih =>
    rw [runLoop_cons]
    by_cases hb : (fileStep f).2 = true
    · simp [List.countP_cons, hb, ih, Nat.add_comm]
    · have hb' : (fileStep f).2 = false := by revert hb; cases (fileStep f).2 <;> simp
      simp [List.countP_cons, hb', ih]

theorem fileStep_error {f : SimFile} {e : String}
    (h : f.readRes = Except.error e) :
    fileStep f = ([LogLine.errorLog f.path e], false) := by
  unfold fileStep
  rw [h]

theorem fileStep_writeError {f : SimFile} {content e : String}
    (hr : f.readRes = Except.ok content) (hc : ¬ fixContentS content = content)
    (hw : f.writeErr = some e) :
    fileStep f = ([LogLine.errorLog f.path e], false) := by
  unfold fileStep
  rw [hr]
  simp [hc, hw]

theorem fileStep_readFails {f : SimFile} (h : readFails f = true) :
    (fileStep f).2 = false := by
  unfold readFails at h
  unfold fileStep
  cases hr : f.readRes with
  | error e => simp
  | ok content => rw [hr] at h; simp at h

theorem count_eq_filter_count (files : List SimFile) :
    files.countP (fun g => (fileStep g).2)
      = (files.filter (fun g => !readFails g)).countP
          (fun g => (fileStep g).2) := by
  induction files with
  | nil => rfl
  | cons f fs ih =>
    by_cases hr : readFails f = true
    · have hs : (fileStep f).2 = false := fileStep_readFails hr
      simp [List.countP_cons, List.filter_cons, hr, hs, ih]
    · have hr' : readFails f = false := by revert hr; cases readFails f <;> simp
      simp [List.countP_cons, List.filter_cons, hr', ih]

theorem errorLog_mem {files : List SimFile} {f : SimFile} {e : String}
    (hf : f ∈ files) (he : f.readRes = Except.error e) :
    LogLine.errorLog f.path e ∈ (runLoop files [] 0).1 := by
  obtain ⟨s, t, rfl⟩ := List.append_of_mem hf
  rw [runLoop_append, runLoop_cons, fileStep_error he]
  simp

theorem fixContentS_eval (s : String) :
    fixContentS s = ⟨fixContent effectiveCharMappings s.data⟩ := by
  unfold fixContentS
  rw [charMappings_eval]

theorem noOccAll_eval (s : String) :
    noOccAll s = effectiveCharMappings.all
      (fun p => !(hasMatch kwImport p.1 s.data)
        && !(hasMatch kwExport p.1 s.data)) := by
  unfold noOccAll
  rw [charMappings_eval]

theorem noOccAll_spec {s : String} (h : noOccAll s = true) :
    ∀ p ∈ charMappings,
      hasMatch kwImport p.1 s.data = false
        ∧ hasMatch kwExport p.1 s.data = false := by
  unfold noOccAll at h
  rw [List.all_eq_true] at h
  intro p hp
  have := h p hp
  simp only [Bool.and_eq_true, Bool.not_eq_true'] at this
  exact this

/-- C1 (counterexample): the full mapping pass is not idempotent.  The file
text `import '../services/media/image_service.dart'` is rewritten by the
first run to quote `../../core/services/media/image_service.dart`, which is
itself a mapping key positioned earlier in the effective table, so a second
run rewrites it again. -/
theorem c1_counterexample :
    ¬ (fixContentS (fixContentS "import '../services/media/image_service.dart'")
        = fixContentS "import '../services/media/image_service.dart'") := by
  simp only [fixContentS_eval]
  decide

/-- C1 (amended): running the rewriter twice produces no further changes for
every file whose first-run result no longer contains any occurrence of the
statement pattern of a mapping key; in general a second run can change
the text further. -/
theorem c1_idempotent_on_stable (s : String)
    (h : noOccAll (fixContentS s) = true) :
    fixContentS (fixContentS s) = fixContentS s := by
  have hfix : fixContent charMappings (fixContentS s).data = (fixContentS s).data :=
    fixContent_noop (noOccAll_spec h)
  show (⟨fixContent charMappings (fixContentS s).data⟩ : String) = fixContentS s
  rw [hfix]

/-- Witness for C1 (amended) at the one-character file `x`. -/
theorem c1_idempotent_on_stable_witness :
    noOccAll (fixContentS "x") = true
      ∧ fixContentS (fixContentS "x") = fixContentS "x" :=
  ⟨by simp only [fixContentS_eval, noOccAll_eval]; decide,
   c1_idempotent_on_stable "x"
     (by simp only [fixContentS_eval, noOccAll_eval]; decide)⟩

/-- C2 (counterexample): the mapping table does not behave as the declared
ordered sequence of pairs with duplicates applied redundantly.  On the file
`import '../../core/services/media/image_service.dart'` the program (dict
semantics) and the declared-sequence reading disagree. -/
theorem c2_counterexample :
    ¬ (fixContentDeclaredS
          "import '../../core/services/media/image_service.dart'"
        = fixContentS
            "import '../../core/services/media/image_service.dart'") := by
  simp only [fixContentS_eval]
  decide

/-- C2 (amended): duplicate declared keys collapse by Python dict semantics
into a single entry per key carrying the last-declared value; the earlier
declared target of the twice-declared image-service key never takes effect,
and the file is rewritten once with the surviving value. -/
theorem c2_dict_collapse :
    import_mappings.countP
        (fun p => decide (p.1 = "../../core/services/media/image_service.dart"))
        = 1
      ∧ ("../../core/services/media/image_service.dart",
          "../../../core/services/media/image_service.dart") ∈ import_mappings
      ∧ ¬ (("../../core/services/media/image_service.dart",
          "../media/image_service.dart") ∈ import_mappings)
      ∧ fixContentS "import '../../core/services/media/image_service.dart'"
          = "import '../../../core/services/media/image_service.dart'" := by
  simp only [import_mappings_eval, fixContentS_eval]
  decide

/-- C3: any exception while processing one file — a failing read, or a
failing write-back of changed content — is caught and logged with the file
path and the error message, the file contributes nothing to the modified
count, and the run continues with the remaining files; the summary still
covers every discovered file.  (The substitution itself is total: with the
escaped literal patterns of this script it raises no exception.) -/
theorem c3_error_isolated (pre post : List SimFile) (f : SimFile) (e : String)
    (he : f.readRes = Except.error e
      ∨ ∃ content, f.readRes = Except.ok content
          ∧ ¬ fixContentS content = content ∧ f.writeErr = some e) :
    fixImportsRun (pre ++ f :: post)
      = ((fixImportsRun pre).1
            ++ LogLine.errorLog f.path e :: (fixImportsRun post).1,
         (fixImportsRun pre).2.1 + (fixImportsRun post).2.1,
         pre.length + (post.length + 1)) := by
  have hstep : fileStep f = ([LogLine.errorLog f.path e], false) := by
    rcases he with he | ⟨content, hr, hc, hw⟩
    · exact fileStep_error he
    · exact fileStep_writeError hr hc hw
  unfold fixImportsRun
  rw [runLoop_append, runLoop_cons, hstep]
  simp [List.append_assoc]

/-- Witness for C3 with a single file whose content changes but whose
write-back raises. -/
theorem c3_error_isolated_witness :
    fixImportsRun
        ([] ++ (⟨"lib/c.dart", Except.ok "import '../models/note.dart';",
            some "Disk full"⟩ : SimFile) :: [])
      = ((fixImportsRun []).1
            ++ LogLine.errorLog "lib/c.dart" "Disk full"
              :: (fixImportsRun []).1,
         (fixImportsRun []).2.1 + (fixImportsRun []).2.1,
         List.length ([] : List SimFile) + (List.length ([] : List SimFile) + 1)) :=
  c3_error_isolated [] []
    ⟨"lib/c.dart", Except.ok "import '../models/note.dart';", some "Disk full"⟩
    "Disk full"
    (Or.inr ⟨"import '../models/note.dart';", rfl,
      by simp only [fixContentS_eval]; decide, rfl⟩)

/-- C4 (counterexample): the old quoted path can reappear.  In a file
holding imports of both `../../core/services/media/image_service.dart` (a
key whose target is not rewritten by any later entry) and
`../services/media/image_service.dart`, the run leaves an import of the
former old path in the file, because the later entry for the second import
targets exactly that old path. -/
theorem c4_counterexample :
    (import_mappings.all (fun p =>
        decide (p.1 ≠ "../../../core/services/media/image_service.dart"))) = true
      ∧ hasMatch kwImport ("../../core/services/media/image_service.dart").data
          (fixContentS "import '../../core/services/media/image_service.dart' import '../services/media/image_service.dart'").data
          = true := by
  simp only [import_mappings_eval, fixContentS_eval]
  decide

/-- C4 (amended): for a file consisting of a single import statement quoting
a mapping key (in either quote style), when no earlier entry shares the key
and no later entry rewrites the produced target, the run re-emits the
statement single-quoted with the new path and the old quoted path is gone;
a statement matching no entry keeps its original quote characters. -/
theorem c4_canonical_rewrite :
    (∀ (m1 m2 : List (List Char × List Char)) (k v : List Char)
        (q1 q2 : Char), pathLike k = true → pathLike v = true →
        isQuote q1 = true → isQuote q2 = true →
        (∀ p ∈ m1, p.1 ≠ k) → (∀ p ∈ m2, p.1 ≠ v) →
        fixContent (m1 ++ (k, v) :: m2) (stmtText kwImport q1 q2 k)
          = stmtText kwImport '\'' '\'' v)
      ∧ (∀ (m : List (List Char × List Char)) (k : List Char) (q1 q2 : Char),
          pathLike k = true → isQuote q1 = true → isQuote q2 = true →
          (∀ p ∈ m, p.1 ≠ k) →
          fixContent m (stmtText kwImport q1 q2 k)
            = stmtText kwImport q1 q2 k) := by
  constructor
  · intro m1 m2 k v q1 q2 hk hv hq1 hq2 h1 h2
    rw [fixContent_append, fixContent_stmt_ne hk h1 hq1 hq2, fixContent_cons,
      applyEntry_stmt_match hv hq1 hq2]
    exact fixContent_stmt_ne hv h2 (by decide) (by decide)
  · intro m k q1 q2 hk hq1 hq2 hall
    exact fixContent_stmt_ne hk hall hq1 hq2

/-- Witness for C4 (amended): the note-model entry rewrites the double-quoted
statement, and an unmatched double-quoted statement is untouched. -/
theorem c4_canonical_rewrite_witness :
    fixContent
        ([] ++ ("../models/note.dart".data, "../../core/models/note.dart".data) :: [])
        (stmtText kwImport '"' '"' ("../models/note.dart".data))
      = stmtText kwImport '\'' '\'' ("../../core/models/note.dart".data)
    ∧ fixContent [] (stmtText kwImport '"' '"' ("a.dart".data))
      = stmtText kwImport '"' '"' ("a.dart".data) :=
  ⟨c4_canonical_rewrite.1 [] [] ("../models/note.dart".data)
      ("../../core/models/note.dart".data) '"' '"' (by decide) (by decide)
      (by decide) (by decide) (by simp) (by simp),
   c4_canonical_rewrite.2 [] ("a.dart".data) '"' '"' (by decide) (by decide)
      (by decide) (by simp)⟩

/-- C5: a file in which no import/export pattern of any mapping key occurs
is left byte-identical, is not written back, and is not counted as
modified. -/
theorem c5_no_occurrence_noop (pathName content : String) (we : Option String)
    (h : noOccAll content = true) :
    fixContentS content = content
      ∧ fileStep ⟨pathName, Except.ok content, we⟩ = ([], false) := by
  have hfix : fixContentS content = content := by
    show (⟨fixContent charMappings content.data⟩ : String) = content
    rw [fixContent_noop (noOccAll_spec h)]
  refine ⟨hfix, ?_⟩
  unfold fileStep
  simp [hfix]

/-- Witness for C5 at the one-character file `x`. -/
theorem c5_no_occurrence_noop_witness :
    noOccAll "x" = true
      ∧ (fixContentS "x" = "x"
          ∧ fileStep ⟨"lib/a.dart", Except.ok "x", none⟩ = ([], false)) :=
  ⟨by rw [noOccAll_eval]; decide,
   c5_no_occurrence_noop "lib/a.dart" "x" none (by rw [noOccAll_eval]; decide)⟩

/-- C6: with two entries `A→B` and `B→C` in that declaration order, a file
consisting of a single-quoted import of `A` ends one run as an import of
`C`: the output of the earlier entry is rewritten again by the later entry
whose key equals that output. -/
theorem c6_chained_rewrite (A B C : List Char)
    (hB : pathLike B = true) (hC : pathLike C = true) :
    fixContent [(A, B), (B, C)] (stmtText kwImport '\'' '\'' A)
      = stmtText kwImport '\'' '\'' C :=
  fixContent_two_chain hB hC

/-- Witness for C6 on three concrete paths. -/
theorem c6_chained_rewrite_witness :
    fixContent [("a.dart".data, "b.dart".data), ("b.dart".data, "c.dart".data)]
        (stmtText kwImport '\'' '\'' ("a.dart".data))
      = stmtText kwImport '\'' '\'' ("c.dart".data) :=
  c6_chained_rewrite ("a.dart".data) ("b.dart".data) ("c.dart".data)
    (by decide) (by decide)

/-- C7: the two example scenarios: the double-quoted note-model import is
rewritten to the single-quoted corrected path, and the pika-button import is
rewritten once and not further rewritten by the earlier-declared entry for
its target. -/
theorem c7_examples :
    fixContentS "import \"../models/note.dart\";"
        = "import '../../core/models/note.dart';"
      ∧ fixContentS "import '../widgets/pika_button.dart';"
          = "import '../../core/widgets/pika_button.dart';" := by
  constructor
  · simp only [fixContentS_eval]
    decide
  · simp only [fixContentS_eval]
    decide

/-- C8: a file whose read fails is logged as errored with its path and
message, is excluded from the modified count (which ranges over the readable
files), and the summary total still counts every discovered file. -/
theorem c8_unreadable_excluded (files : List SimFile) (f : SimFile) (e : String)
    (hf : f ∈ files) (he : f.readRes = Except.error e) :
    LogLine.errorLog f.path e ∈ (fixImportsRun files).1
      ∧ (fixImportsRun files).2.1
          = (files.filter (fun g => !readFails g)).countP
              (fun g => (fileStep g).2)
      ∧ (fixImportsRun files).2.2 = files.length := by
  refine ⟨errorLog_mem hf he, ?_, rfl⟩
  show (runLoop files [] 0).2 = _
  rw [runLoop_count]
  exact count_eq_filter_count files

/-- Witness for C8 with one unreadable file. -/
theorem c8_unreadable_excluded_witness :
    LogLine.errorLog "lib/b.dart" "unreadable"
        ∈ (fixImportsRun [⟨"lib/b.dart", Except.error "unreadable", none⟩]).1
      ∧ (fixImportsRun [⟨"lib/b.dart", Except.error "unreadable", none⟩]).2.1
          = (([⟨"lib/b.dart", Except.error "unreadable", none⟩] : List SimFile).filter
              (fun g => !readFails g)).countP (fun g => (fileStep g).2)
      ∧ (fixImportsRun [⟨"lib/b.dart", Except.error "unreadable", none⟩]).2.2
          = ([⟨"lib/b.dart", Except.error "unreadable", none⟩] : List SimFile).length :=
  c8_unreadable_excluded [⟨"lib/b.dart", Except.error "unreadable", none⟩]
    ⟨"lib/b.dart", Except.error "unreadable", none⟩ "unreadable" (by simp) rfl

/-- C9: for every mapping entry, an occurrence whose opening and closing
quote characters differ is matched all the same and re-emitted in
single-quote form, because the two quote delimiters of the pattern are
matched independently. -/
theorem c9_mismatched_quotes :
    ∀ p ∈ charMappings,
      subst kwImport p.1 p.2 (stmtText kwImport '"' '\'' p.1)
          = stmtText kwImport '\'' '\'' p.2
        ∧ subst kwImport p.1 p.2 (stmtText kwImport '\'' '"' p.1)
          = stmtText kwImport '\'' '\'' p.2 := by
  intro p hp
  exact ⟨subst_stmt_match (by decide) (by decide),
    subst_stmt_match (by decide) (by decide)⟩

/-- Witness for C9 at the first mapping entry. -/
theorem c9_mismatched_quotes_witness :
    subst kwImport ("../core/models/note.dart".data)
        ("../../../core/models/note.dart".data)
        (stmtText kwImport '"' '\'' ("../core/models/note.dart".data))
      = stmtText kwImport '\'' '\'' ("../../../core/models/note.dart".data)
    ∧ subst kwImport ("../core/models/note.dart".data)
        ("../../../core/models/note.dart".data)
        (stmtText kwImport '\'' '"' ("../core/models/note.dart".data))
      = stmtText kwImport '\'' '\'' ("../../../core/models/note.dart".data) :=
  c9_mismatched_quotes
    ("../core/models/note.dart".data, "../../../core/models/note.dart".data)
    (by rw [charMappings_eval]; decide)

/-- C10: for every mapping entry, the keywords are not matched as whole
words: an occurrence of the keyword as the tail of a longer identifier and
one inside a line comment are both rewritten, in the same pass. -/
theorem c10_keyword_substring :
    ∀ p ∈ charMappings,
      subst kwImport p.1 p.2 (keywordTailText kwImport p.1)
          = keywordTailText kwImport p.2
        ∧ subst kwExport p.1 p.2 (keywordTailText kwExport p.1)
          = keywordTailText kwExport p.2 := by
  intro p hp
  exact ⟨subst_keywordTail_imp p.1 p.2, subst_keywordTail_exp p.1 p.2⟩

/-- Witness for C10 at the first mapping entry. -/
theorem c10_keyword_substring_witness :
    subst kwImport ("../core/models/note.dart".data)
        ("../../../core/models/note.dart".data)
        (keywordTailText kwImport ("../core/models/note.dart".data))
      = keywordTailText kwImport ("../../../core/models/note.dart".data)
    ∧ subst kwExport ("../core/models/note.dart".data)
        ("../../../core/models/note.dart".data)
        (keywordTailText kwExport ("../core/models/note.dart".data))
      = keywordTailText kwExport ("../../../core/models/note.dart".data) :=
  c10_keyword_substring
    ("../core/models/note.dart".data, "../../../core/models/note.dart".data)
    (by rw [charMappings_eval]; decide)

end FixImports

